import Mathlib

/-!
Shallow embedding of the fingerprinting core of `django-querycache`
(`django_querycache/fingerprinting.py`, `django_querycache/hashfunctions.py`,
`django_querycache/cacheman.py`).

Conventions used throughout:
* Python strings are Lean `String`s; Python `int(s, 16)` is `hexToNat`,
  Python `"%X" % n` is `toHexUpper`, Python `str.zfill` is `zfill`.
* A value read from a Django cache is an `Option` (Python `cache.get`
  returns `None` on a miss).
* Wall-clock timestamps (`datetime.now().timestamp()`, a Python float of
  epoch seconds) and expiry windows are rationals `ℚ`.
* PostgreSQL `substring(s from f for c)` is `sqlSubstring`, with the
  1-based clamping semantics of PostgreSQL.
-/

/-- Numeric value of one hexadecimal character, as Python `int(·, 16)`
assigns it (digits, then lowercase, then uppercase letters). -/
def hexVal (c : Char) : Nat :=
  if c.isDigit then c.toNat - '0'.toNat
  else if 'a' ≤ c then c.toNat - 'a'.toNat + 10
  else c.toNat - 'A'.toNat + 10

/-- Python `int(s, 16)` on a hexadecimal string. -/
def hexToNat (s : String) : Nat :=
  s.data.foldl (fun acc c => 16 * acc + hexVal c) 0

/-- Uppercase hexadecimal digit for `n < 16` (`'0'` is code 48, `'A'` is 65). -/
def hexDigitUpper (n : Nat) : Char :=
  if n < 10 then Char.ofNat (48 + n) else Char.ofNat (55 + n)

/-- Fuel-driven most-significant-first hexadecimal digit expansion. -/
def toHexAux : Nat → Nat → List Char
  | 0, _ => []
  | fuel + 1, n =>
    if n < 16 then [hexDigitUpper n]
    else toHexAux fuel (n / 16) ++ [hexDigitUpper (n % 16)]

/-- Python `"%X" % n`: uppercase hexadecimal with no leading zeros
(and `"0"` for zero). -/
def toHexUpper (n : Nat) : String :=
  String.mk (toHexAux (n + 1) n)

/-- Python `s.zfill(width)`: left-pad with `'0'` up to `width`. -/
def zfill (width : Nat) (s : String) : String :=
  String.mk (List.replicate (width - s.length) '0' ++ s.data)

/-- `Fingerprinting.query_fingerprint.hexxor` (fingerprinting.py line 136):
`("%X" % (int(a, 16) ^ int(b, 16))).zfill(len(a))`. -/
def hexxor (a b : String) : String :=
  zfill a.length (toHexUpper (hexToNat a ^^^ hexToNat b))

/-- Width of the fingerprint accumulator: `32 if self.long_hash else 8`
(fingerprinting.py line 143). -/
def fingerprintWidth (long_hash : Bool) : Nat :=
  if long_hash then 32 else 8

/-- `Fingerprinting.query_fingerprint` (fingerprinting.py lines 122-143):
`reduce(hexxor, row_fingerprints(), "0" * (32 if self.long_hash else 8))`.
The list of per-row hash tokens returned by the annotated queryset is the
`row_fingerprints` argument. -/
def query_fingerprint (long_hash : Bool) (row_fingerprints : List String) : String :=
  row_fingerprints.foldl hexxor (String.mk (List.replicate (fingerprintWidth long_hash) '0'))

/-- PostgreSQL `substring(s from start for count)`: the characters at 1-based
positions `max(start, 1) .. start + count - 1`.  `substring(s for count)` is
`substring(s from 1 for count)`. -/
def sqlSubstring (s : String) (start : Int) (count : Nat) : String :=
  let startPos : Int := max start 1
  let endPos : Int := start + (count : Int)
  String.mk ((s.data.drop (startPos - 1).toNat).take (endPos - startPos).toNat)

/-- `RowFullHash` (hashfunctions.py lines 10-17), template
`MD5("table"::text)`: the full 32-character md5 hex digest of the row. -/
def rowFullHashToken (md5hex : String) : String := md5hex

/-- `RowHash` (hashfunctions.py lines 20-26), template
`substring(MD5("table"::text) for 8)`. -/
def rowHashToken (md5hex : String) : String := sqlSubstring md5hex 1 8

/-- `SomeColsFullHash` (hashfunctions.py lines 29-34), template
`substring(MD5(cols) for 8)`. -/
def someColsFullHashToken (md5hex : String) : String := sqlSubstring md5hex 1 8

/-- `SomeColsHash` (hashfunctions.py lines 58-64), template
`substring(MD5(cols) from 0 for 8)`. -/
def someColsHashToken (md5hex : String) : String := sqlSubstring md5hex 0 8

/-- A character is a hexadecimal digit (either case). -/
def isHexChar (c : Char) : Bool :=
  c.isDigit || ('a' ≤ c && c ≤ 'f') || ('A' ≤ c && c ≤ 'F')

/-- The two cache entries a `Fingerprinting` instance owns: what
`cache.get(self.cache_key)` and `cache.get(self.time_cache_key)` return
(`none` is a cache miss / Python `None`). -/
structure FPCache where
  fingerprint : Option String
  set_time : Option ℚ
deriving DecidableEq

/-- Python truthiness of a cache read that yields a string or `None`
(`None` and the empty string are falsy). -/
def pyTruthyStr : Option String → Bool
  | none => false
  | some s => !s.isEmpty

/-- Python truthiness of a cache read that yields a number or `None`
(`None` and zero are falsy). -/
def pyTruthyRat : Option ℚ → Bool
  | none => false
  | some x => x != 0

/-- `Fingerprinting._cached_fingerprint` setter (fingerprinting.py lines
85-92): `cache.set(time_cache_key, utcnow().timestamp())` then
`cache.set(cache_key, value)` — one logical operation writing both
entries. -/
def set_cached_fingerprint (now : ℚ) (value : String) : FPCache :=
  { fingerprint := some value, set_time := some now }

/-- `Fingerprinting._cached_fingerprint` deleter (fingerprinting.py lines
94-97): deletes both entries. -/
def delete_cached_fingerprint : FPCache :=
  { fingerprint := none, set_time := none }

/-- `Fingerprinting._expired` (fingerprinting.py lines 99-120): absent (or
falsy) fingerprint → expired; absent (or falsy) timestamp → expired;
otherwise expired iff `now - timestamp` has reached `fingerprint_expiry`. -/
def expired (st : FPCache) (now expiry : ℚ) : Bool :=
  if !pyTruthyStr st.fingerprint then true
  else if !pyTruthyRat st.set_time then true
  else
    let age := now - st.set_time.getD 0
    if age < expiry then false else true

/-- `Fingerprinting.update_required` (fingerprinting.py lines 145-174).
`new_fp` is the value `query_fingerprint()` would return; it is consumed
only on the slow path, mirroring that the query only runs there.  Returns
the Python return value paired with the resulting cache state. -/
def update_required (st : FPCache) (now expiry : ℚ) (force_check : Bool) (new_fp : String) :
    Bool × FPCache :=
  if !(expired st now expiry) && !force_check then (false, st)
  else if st.fingerprint = some new_fp then (false, set_cached_fingerprint now new_fp)
  else (true, set_cached_fingerprint now new_fp)

/-- The cache entries a `ModelTimeStampedFingerprint` instance owns: the
query-scoped pair inherited from `Fingerprinting` plus the table-scoped pair
under `table_cache_key` / `table_time_cache_key`. -/
structure TieredFPCache where
  base : FPCache
  table_fingerprint : Option String
  table_set_time : Option ℚ
deriving DecidableEq

/-- `ModelTimeStampedFingerprint._cached_table_fingerprint` setter
(fingerprinting.py lines 251-258): writes the table timestamp entry and the
table fingerprint entry together. -/
def set_cached_table_fingerprint (st : TieredFPCache) (now : ℚ) (value : String) : TieredFPCache :=
  { st with table_fingerprint := some value, table_set_time := some now }

/-- `ModelTimeStampedFingerprint._cached_table_fingerprint` deleter
(fingerprinting.py lines 260-263): deletes both table-scoped entries. -/
def delete_cached_table_fingerprint (st : TieredFPCache) : TieredFPCache :=
  { st with table_fingerprint := none, table_set_time := none }

/-- `ModelTimeStampedFingerprint.update_required` (fingerprinting.py lines
265-277).  `table_fp` is the value `_get_table_fingerprint()` returns and
`query_fp` the value the timestamp-mode `query_fingerprint()` would return
(consumed only when the table fingerprint differs, mirroring that the
query-scoped check only runs there). -/
def tiered_update_required (st : TieredFPCache) (now expiry : ℚ) (force_check : Bool)
    (table_fp query_fp : String) : Bool × TieredFPCache :=
  if some table_fp = st.table_fingerprint then
    (false, set_cached_table_fingerprint st now table_fp)
  else
    let st1 := set_cached_table_fingerprint st now table_fp
    let r := update_required st1.base now expiry force_check query_fp
    (r.1, { st1 with base := r.2 })

/-- One Django model field as `TimeStampedFingerprint.__init__` inspects it:
its name, and whether `hasattr(field, "auto_now") and field.auto_now is
True`. -/
structure DjangoField where
  name : String
  auto_now : Bool
deriving DecidableEq

/-- Timestamp-column resolution in `TimeStampedFingerprint.__init__`
(fingerprinting.py lines 200-210): use the `timestamp_column` kwarg if
given, otherwise the first model field with `auto_now` true; raise
`ValueError("No timestamp column")` if the result is falsy (`None` or
empty).  The constructor performs no cache writes, so it threads the cache
state through unchanged — in particular the error is raised before any
cache entry is written. -/
def tsfp_init_timestamp_column (timestamp_column_kwarg : Option String)
    (fields : List DjangoField) (st : FPCache) : Except String (String × FPCache) :=
  let tc : Option String :=
    match timestamp_column_kwarg with
    | some c => some c
    | none => (fields.find? fun f => f.auto_now).map DjangoField.name
  match tc with
  | some c => if c.isEmpty then Except.error "No timestamp column" else Except.ok (c, st)
  | none => Except.error "No timestamp column"

/-- The cache-mutating operations of the fingerprint engines, acting on the
four entries a tiered engine can own (a plain content-mode or timestamp-mode
engine only ever touches the `base` pair). -/
inductive CacheOp where
  | setFP (now : ℚ) (value : String)
  | delFP
  | updateReq (now expiry : ℚ) (force_check : Bool) (new_fp : String)
  | setTableFP (now : ℚ) (value : String)
  | delTableFP
  | tieredUpdateReq (now expiry : ℚ) (force_check : Bool) (table_fp query_fp : String)

/-- Interpretation of each engine operation as a cache-state transformer. -/
def applyCacheOp (st : TieredFPCache) : CacheOp → TieredFPCache
  | .setFP now v => { st with base := set_cached_fingerprint now v }
  | .delFP => { st with base := delete_cached_fingerprint }
  | .updateReq now expiry force nfp => { st with base := (update_required st.base now expiry force nfp).2 }
  | .setTableFP now v => set_cached_table_fingerprint st now v
  | .delTableFP => delete_cached_table_fingerprint st
  | .tieredUpdateReq now expiry force tfp qfp => (tiered_update_required st now expiry force tfp qfp).2

/-- A fingerprint entry never exists without its freshness timestamp. -/
def fpPaired (st : TieredFPCache) : Prop :=
  (st.base.fingerprint.isSome → st.base.set_time.isSome) ∧
  (st.table_fingerprint.isSome → st.table_set_time.isSome)

instance (st : TieredFPCache) : Decidable (fpPaired st) := by
  unfold fpPaired; infer_instance

/-- The cache before any engine has run: every entry absent. -/
def initialFPCache : TieredFPCache :=
  { base := { fingerprint := none, set_time := none },
    table_fingerprint := none, table_set_time := none }

/-- `Fingerprinting.__init__` (fingerprinting.py line 59):
`self.fingerprint_expiry = fingerprint_expiry or 30` — Python `or` replaces
a falsy argument (`None` or zero) with 30 and keeps any other value,
negative ones included. -/
def effective_fingerprint_expiry : Option ℚ → ℚ
  | none => 30
  | some v => if v = 0 then 30 else v

/-- The cache state a `CachedQuerySet` (cacheman.py) touches: the serialized
result under `cache_key`, the fingerprint engine's pair of entries, and
whether the configured backend is Django's `DummyCache`
(`self._cache_is_dummy`).  A dummy backend reports every read as absent,
discards every write, and answers `in` with `False`. -/
structure CQCache (σ : Type) where
  dummy : Bool
  value : Option σ
  fingerprint : Option String
  set_time : Option ℚ
deriving DecidableEq

/-- `cache.get(self.cache_key)` on the value store. -/
def cq_get_value {σ : Type} (st : CQCache σ) : Option σ :=
  if st.dummy then none else st.value

/-- `self.cache_key in self.cache` (cacheman.py line 519). -/
def cq_contains_value {σ : Type} (st : CQCache σ) : Bool :=
  if st.dummy then false else st.value.isSome

/-- `cache.set(self.cache_key, value)` on the value store. -/
def cq_set_value {σ : Type} (st : CQCache σ) (v : σ) : CQCache σ :=
  if st.dummy then st else { st with value := some v }

/-- `cache.get(cache_key)` of the fingerprint engine composed into the
`CachedQuerySet` (cacheman.py `Fingerprinting._cached_fingerprint`). -/
def cq_get_fingerprint {σ : Type} (st : CQCache σ) : Option String :=
  if st.dummy then none else st.fingerprint

/-- `cache.get(time_cache_key)` of the composed fingerprint engine. -/
def cq_get_set_time {σ : Type} (st : CQCache σ) : Option ℚ :=
  if st.dummy then none else st.set_time

/-- `Fingerprinting._cached_fingerprint` setter (cacheman.py lines 215-222):
both entries written together (both writes discarded on a dummy backend). -/
def cq_set_cached_fingerprint {σ : Type} (st : CQCache σ) (now : ℚ) (v : String) : CQCache σ :=
  if st.dummy then st else { st with fingerprint := some v, set_time := some now }

/-- `Fingerprinting._expired` (cacheman.py lines 229-250). -/
def cq_expired {σ : Type} (st : CQCache σ) (now expiry : ℚ) : Bool :=
  if !pyTruthyStr (cq_get_fingerprint st) then true
  else if !pyTruthyRat (cq_get_set_time st) then true
  else
    let age := now - (cq_get_set_time st).getD 0
    if age < expiry then false else true

/-- `Fingerprinting.update_required` (cacheman.py lines 275-305), against a
possibly-dummy backend.  `new_fp` is the value `query_fingerprint()` would
return. -/
def cq_update_required {σ : Type} (st : CQCache σ) (now expiry : ℚ) (force_check : Bool)
    (new_fp : String) : Bool × CQCache σ :=
  if !(cq_expired st now expiry) && !force_check then (false, st)
  else if cq_get_fingerprint st = some new_fp then (false, cq_set_cached_fingerprint st now new_fp)
  else (true, cq_set_cached_fingerprint st now new_fp)

/-- `CachedQuerySet.cached_query` getter (cacheman.py lines 488-492): on a
dummy backend it recomputes `get_serialized_query()` (the `ser` argument,
the serialization of the query's current rows), otherwise it reads the
value store. -/
def cached_query {σ : Type} (st : CQCache σ) (ser : σ) : Option σ :=
  if st.dummy then some ser else cq_get_value st

/-- `CachedQuerySet.cached_query` setter (cacheman.py lines 494-497). -/
def set_cached_query {σ : Type} (st : CQCache σ) (v : σ) : CQCache σ :=
  cq_set_value st v

/-- `CachedQuerySet.update_cache` (cacheman.py lines 530-534): returns
without writing when the backend is dummy. -/
def update_cache {σ : Type} (st : CQCache σ) (ser : σ) : CQCache σ :=
  if st.dummy then st else set_cached_query st ser

/-- `CachedQuerySet.update_if_required` (cacheman.py lines 513-528). -/
def update_if_required {σ : Type} (st : CQCache σ) (now expiry : ℚ) (new_fp : String)
    (ser : σ) : CQCache σ :=
  if !cq_contains_value st then
    let st1 := update_cache st ser
    (cq_update_required st1 now expiry false new_fp).2
  else
    let r := cq_update_required st now expiry false new_fp
    if r.1 then update_cache r.2 ser else r.2

/-- `CachedQuerySet.get_with_update` (cacheman.py lines 499-511): runs
`update_if_required` and returns `cached_query`. -/
def get_with_update {σ : Type} (st : CQCache σ) (now expiry : ℚ) (new_fp : String)
    (ser : σ) : Option σ × CQCache σ :=
  let st1 := update_if_required st now expiry new_fp ser
  (cached_query st1 ser, st1)

/-- Value of a character list read as most-significant-first hex digits. -/
def hexListVal (l : List Char) : Nat :=
  l.foldl (fun acc c => 16 * acc + hexVal c) 0

/-- The canonical `width`-character uppercase-hex rendering of a number, as
`hexxor` produces it. -/
def canonHex (w n : Nat) : String :=
  zfill w (toHexUpper n)

theorem hexVal_hexDigitUpper {n : Nat} (h : n < 16) : hexVal (hexDigitUpper n) = n := by
  interval_cases n <;> decide

theorem isHexChar_hexDigitUpper {n : Nat} (h : n < 16) : isHexChar (hexDigitUpper n) = true := by
  interval_cases n <;> decide

theorem hexfold_linear (l : List Char) :
    ∀ a : Nat, l.foldl (fun acc c => 16 * acc + hexVal c) a = a * 16 ^ l.length + hexListVal l := by
  induction l with
  | nil => intro a; simp [hexListVal]
  | cons c l ih =>
    intro a
    simp only [List.foldl_cons, hexListVal, List.length_cons]
    rw [ih (16 * a + hexVal c), ih (16 * 0 + hexVal c)]
    ring

theorem hexListVal_append (l₁ l₂ : List Char) :
    hexListVal (l₁ ++ l₂) = hexListVal l₁ * 16 ^ l₂.length + hexListVal l₂ := by
  simp only [hexListVal, List.foldl_append]
  rw [show l₂.foldl (fun acc c => 16 * acc + hexVal c)
        (l₁.foldl (fun acc c => 16 * acc + hexVal c) 0) =
      l₂.foldl (fun acc c => 16 * acc + hexVal c) (hexListVal l₁) from rfl,
    hexfold_linear l₂ (hexListVal l₁)]
  rfl

theorem hexListVal_toHexAux : ∀ fuel n : Nat, n < 16 ^ fuel → hexListVal (toHexAux fuel n) = n := by
  intro fuel
  induction fuel with
  | zero =>
    intro n hn
    interval_cases n
    simp [toHexAux, hexListVal]
  | succ fuel ih =>
    intro n hn
    by_cases h16 : n < 16
    · simp only [toHexAux, if_pos h16, hexListVal, List.foldl_cons, List.foldl_nil]
      rw [hexVal_hexDigitUpper h16]
      omega
    · have hdiv : n / 16 < 16 ^ fuel := by
        rw [Nat.div_lt_iff_lt_mul (by norm_num : 0 < 16)]
        calc n < 16 ^ (fuel + 1) := hn
        _ = 16 ^ fuel * 16 := by rw [pow_succ]
      simp only [toHexAux, if_neg h16]
      rw [hexListVal_append, ih _ hdiv]
      simp only [List.length_cons, List.length_nil, pow_one, hexListVal, List.foldl_cons,
        List.foldl_nil]
      rw [hexVal_hexDigitUpper (Nat.mod_lt n (by norm_num))]
      omega

theorem toHexAux_length : ∀ fuel n w : Nat, n < 16 ^ fuel → n < 16 ^ w → 0 < w →
    (toHexAux fuel n).length ≤ w := by
  intro fuel
  induction fuel with
  | zero => intro n w _ _ _; simp [toHexAux]
  | succ fuel ih =>
    intro n w hfuel hw hwpos
    by_cases h16 : n < 16
    · simpa [toHexAux, if_pos h16] using hwpos
    · have hw2 : 2 ≤ w := by
        by_contra hlt
        have : w = 1 := by omega
        rw [this, pow_one] at hw
        omega
      have hdivf : n / 16 < 16 ^ fuel := by
        rw [Nat.div_lt_iff_lt_mul (by norm_num : 0 < 16)]
        calc n < 16 ^ (fuel + 1) := hfuel
        _ = 16 ^ fuel * 16 := by rw [pow_succ]
      have hdivw : n / 16 < 16 ^ (w - 1) := by
        rw [Nat.div_lt_iff_lt_mul (by norm_num : 0 < 16)]
        calc n < 16 ^ w := hw
        _ = 16 ^ (w - 1) * 16 := by
              rw [← pow_succ]
              congr 1
              omega
      have := ih (n / 16) (w - 1) hdivf hdivw (by omega)
      simp only [toHexAux, if_neg h16, List.length_append, List.length_cons, List.length_nil]
      omega

theorem toHexAux_chars : ∀ fuel n : Nat, ∀ c ∈ toHexAux fuel n, isHexChar c = true := by
  intro fuel
  induction fuel with
  | zero => intro n c hc; simp [toHexAux] at hc
  | succ fuel ih =>
    intro n c hc
    by_cases h16 : n < 16
    · simp only [toHexAux, if_pos h16, List.mem_singleton] at hc
      exact hc ▸ isHexChar_hexDigitUpper h16
    · simp only [toHexAux, if_neg h16, List.mem_append, List.mem_singleton] at hc
      rcases hc with hc | hc
      · exact ih _ c hc
      · exact hc ▸ isHexChar_hexDigitUpper (Nat.mod_lt n (by norm_num))

theorem hexToNat_mk (l : List Char) : hexToNat (String.mk l) = hexListVal l := rfl

theorem length_mk (l : List Char) : (String.mk l).length = l.length := rfl

theorem hexListVal_replicate_zero (k : Nat) : hexListVal (List.replicate k '0') = 0 := by
  induction k with
  | zero => rfl
  | succ k ih =>
    rw [List.replicate_succ]
    simp only [hexListVal, List.foldl_cons] at ih ⊢
    simpa using ih

theorem zfill_length {w : Nat} {s : String} (h : s.length ≤ w) : (zfill w s).length = w := by
  simp only [zfill, length_mk, List.length_append, List.length_replicate]
  have : s.data.length = s.length := rfl
  omega

theorem hexToNat_zfill (w : Nat) (s : String) : hexToNat (zfill w s) = hexToNat s := by
  simp only [zfill, hexToNat_mk, hexListVal_append, hexListVal_replicate_zero, zero_mul, zero_add]
  rfl

theorem n_lt_pow16_succ (n : Nat) : n < 16 ^ (n + 1) := by
  calc n < 2 ^ n := Nat.lt_two_pow n
  _ ≤ 16 ^ n := Nat.pow_le_pow_left (by norm_num) n
  _ ≤ 16 ^ (n + 1) := Nat.pow_le_pow_right (by norm_num) (Nat.le_succ n)

theorem hexToNat_canonHex {w : Nat} (n : Nat) : hexToNat (canonHex w n) = n := by
  rw [canonHex, hexToNat_zfill, toHexUpper, hexToNat_mk,
    hexListVal_toHexAux (n + 1) n (n_lt_pow16_succ n)]

theorem canonHex_length {w n : Nat} (hn : n < 16 ^ w) (hw : 0 < w) :
    (canonHex w n).length = w := by
  refine zfill_length ?_
  rw [toHexUpper, length_mk]
  exact toHexAux_length (n + 1) n w (n_lt_pow16_succ n) hn hw

theorem canonHex_chars {w n : Nat} : ∀ c ∈ (canonHex w n).data, isHexChar c = true := by
  intro c hc
  simp only [canonHex, zfill, List.mem_append, List.mem_replicate] at hc
  rcases hc with ⟨_, rfl⟩ | hc
  · decide
  · exact toHexAux_chars (n + 1) n c hc

theorem canonHex_zero {w : Nat} (hw : 0 < w) :
    canonHex w 0 = String.mk (List.replicate w '0') := by
  have h0 : toHexUpper 0 = String.mk ['0'] := by decide
  rw [canonHex, h0, zfill]
  have hlen : (String.mk ['0']).length = 1 := rfl
  rw [hlen]
  congr 1
  have : (String.mk ['0']).data = ['0'] := rfl
  rw [this, ← List.replicate_succ']
  congr 1
  omega

theorem xor_lt_pow16 {a b w : Nat} (ha : a < 16 ^ w) (hb : b < 16 ^ w) : a ^^^ b < 16 ^ w := by
  have h16 : (16 : Nat) ^ w = 2 ^ (4 * w) := by
    rw [show (16 : Nat) = 2 ^ 4 from rfl, ← pow_mul]
  rw [h16] at ha hb ⊢
  exact Nat.bitwise_lt ha hb

theorem hexxor_canonHex {w m : Nat} (b : String) (hm : m < 16 ^ w) (hw : 0 < w) :
    hexxor (canonHex w m) b = canonHex w (m ^^^ hexToNat b) := by
  rw [hexxor, canonHex_length hm hw, hexToNat_canonHex, canonHex]

theorem foldl_hexxor_canonHex {w : Nat} (hw : 0 < w) :
    ∀ (l : List String) (m : Nat), m < 16 ^ w → (∀ b ∈ l, hexToNat b < 16 ^ w) →
    l.foldl hexxor (canonHex w m) = canonHex w (l.foldl (fun a b => a ^^^ hexToNat b) m) := by
  intro l
  induction l with
  | nil => intro m _ _; rfl
  | cons b l ih =>
    intro m hm hv
    have hb : hexToNat b < 16 ^ w := hv b (List.mem_cons_self b l)
    simp only [List.foldl_cons]
    rw [hexxor_canonHex b hm hw]
    exact ih (m ^^^ hexToNat b) (xor_lt_pow16 hm hb) (fun x hx => hv x (List.mem_cons_of_mem b hx))

theorem fingerprintWidth_pos (long_hash : Bool) : 0 < fingerprintWidth long_hash := by
  cases long_hash <;> decide

theorem query_fingerprint_eq_canonHex (long_hash : Bool) (rows : List String)
    (hv : ∀ b ∈ rows, hexToNat b < 16 ^ fingerprintWidth long_hash) :
    query_fingerprint long_hash rows
      = canonHex (fingerprintWidth long_hash) (rows.foldl (fun a b => a ^^^ hexToNat b) 0) := by
  rw [query_fingerprint, ← canonHex_zero (fingerprintWidth_pos long_hash)]
  exact foldl_hexxor_canonHex (fingerprintWidth_pos long_hash) rows 0
    (Nat.pos_pow_of_pos _ (by norm_num)) hv

theorem foldl_xorstep_perm {l₁ l₂ : List String} (h : l₁.Perm l₂) :
    ∀ a : Nat, l₁.foldl (fun a b => a ^^^ hexToNat b) a = l₂.foldl (fun a b => a ^^^ hexToNat b) a := by
  induction h with
  | nil => intro a; rfl
  | cons x _ ih => intro a; simp only [List.foldl_cons]; exact ih _
  | swap x y l =>
    intro a
    simp only [List.foldl_cons]
    rw [Nat.xor_assoc, Nat.xor_assoc, Nat.xor_comm (hexToNat y)]
  | trans _ _ ih₁ ih₂ => intro a; rw [ih₁ a, ih₂ a]

theorem foldl_xorstep_lt {w : Nat} :
    ∀ (l : List String) (m : Nat), m < 16 ^ w → (∀ b ∈ l, hexToNat b < 16 ^ w) →
    l.foldl (fun a b => a ^^^ hexToNat b) m < 16 ^ w := by
  intro l
  induction l with
  | nil => intro m hm _; exact hm
  | cons b l ih =>
    intro m hm hv
    simp only [List.foldl_cons]
    exact ih (m ^^^ hexToNat b) (xor_lt_pow16 hm (hv b (List.mem_cons_self b l)))
      (fun x hx => hv x (List.mem_cons_of_mem b hx))

/-- C1: for every non-empty query over a fixed multiset of rows, the
content-mode fingerprint returned by `Fingerprinting.query_fingerprint` does
not depend on the order in which the per-row hash tokens are produced: any
reordering (permutation) of the token list — reversal in particular — yields
the same fingerprint, because the tokens are reduced with bitwise XOR from an
all-zero seed of the configured width.  The hypothesis bounds each token's
value by the accumulator width, which holds for every token the row-hash SQL
functions can produce (at most 32 hex characters in long mode, at most 8 in
short mode). -/
theorem query_fingerprint_order_independent (long_hash : Bool) (rows₁ rows₂ : List String)
    (hperm : rows₁.Perm rows₂) (_hnonempty : rows₁ ≠ [])
    (hvalid : ∀ b ∈ rows₁, hexToNat b < 16 ^ fingerprintWidth long_hash) :
    query_fingerprint long_hash rows₁ = query_fingerprint long_hash rows₂ := by
  have hvalid₂ : ∀ b ∈ rows₂, hexToNat b < 16 ^ fingerprintWidth long_hash :=
    fun b hb => hvalid b (hperm.mem_iff.mpr hb)
  rw [query_fingerprint_eq_canonHex long_hash rows₁ hvalid,
    query_fingerprint_eq_canonHex long_hash rows₂ hvalid₂,
    foldl_xorstep_perm hperm 0]

/-- Witness for C1 at a concrete input: a two-row token list and its
reversal produce the same short-mode fingerprint. -/
theorem query_fingerprint_order_independent_witness :
    (["deadbeef", "12345678"] : List String).Perm ["12345678", "deadbeef"] ∧
    (["deadbeef", "12345678"] : List String) ≠ [] ∧
    (∀ b ∈ (["deadbeef", "12345678"] : List String),
      hexToNat b < 16 ^ fingerprintWidth false) ∧
    query_fingerprint false ["deadbeef", "12345678"]
      = query_fingerprint false ["12345678", "deadbeef"] :=
  ⟨by decide, by decide, by decide,
    query_fingerprint_order_independent false ["deadbeef", "12345678"]
      ["12345678", "deadbeef"] (by decide) (by decide) (by decide)⟩

/-- C4: for every token list, `query_fingerprint` returns a fixed-length
hexadecimal string — exactly `fingerprintWidth long_hash` characters, which
is 8 when `long_hash` is false and 32 when it is true, every character a hex
digit.  The hypothesis bounds each token's value by the accumulator width,
which holds for every token the row-hash SQL functions can produce. -/
theorem query_fingerprint_fixed_length (long_hash : Bool) (rows : List String)
    (hvalid : ∀ b ∈ rows, hexToNat b < 16 ^ fingerprintWidth long_hash) :
    (query_fingerprint long_hash rows).length = fingerprintWidth long_hash ∧
    ∀ c ∈ (query_fingerprint long_hash rows).data, isHexChar c = true := by
  rw [query_fingerprint_eq_canonHex long_hash rows hvalid]
  exact ⟨canonHex_length
      (foldl_xorstep_lt rows 0 (Nat.pos_pow_of_pos _ (by norm_num)) hvalid)
      (fingerprintWidth_pos long_hash),
    canonHex_chars⟩

/-- Witness for C4 at concrete inputs: a short-mode fingerprint of two rows
has exactly 8 hex characters. -/
theorem query_fingerprint_fixed_length_witness :
    (∀ b ∈ (["deadbeef", "0123456"] : List String),
      hexToNat b < 16 ^ fingerprintWidth false) ∧
    (query_fingerprint false ["deadbeef", "0123456"]).length = fingerprintWidth false ∧
    ∀ c ∈ (query_fingerprint false ["deadbeef", "0123456"]).data, isHexChar c = true :=
  ⟨by decide, query_fingerprint_fixed_length false ["deadbeef", "0123456"] (by decide)⟩

/-- C3 (refuted on the code): the short-mode fingerprint is claimed to be the
first 8 characters of the long-mode fingerprint for every choice of
`hashfields`.  This fails for a caller-specified column subset: the
`SomeColsHash` SQL template `substring(md5(cols) from 0 for 8)` yields only
the first SEVEN characters of the digest (PostgreSQL clamps position 0), and
the `SomeColsFullHash` template `substring(md5(cols) for 8)` truncates the
"full" token to 8 characters, so the long-mode fingerprint is zero-padded to
32 characters and its first 8 characters are `"00000000"`.  Evaluated here on
a single-row query whose column-subset md5 digest is
`0123456789abcdef0123456789abcdef`: the row-level prefix invariant fails
(token `"0123456"` vs `"01234567"`) and so does the fingerprint-level claim
(`"00123456"` vs `"00000000"`). -/
theorem somecols_truncation_not_prefix_of_full :
    someColsHashToken "0123456789abcdef0123456789abcdef"
      ≠ (someColsFullHashToken "0123456789abcdef0123456789abcdef").take 8 ∧
    query_fingerprint false [someColsHashToken "0123456789abcdef0123456789abcdef"]
      ≠ (query_fingerprint true
          [someColsFullHashToken "0123456789abcdef0123456789abcdef"]).take 8 := by
  decide

/-- C2: if a cached fingerprint exists (a non-empty string, as every stored
fingerprint is), a recorded timestamp exists (non-zero, as every recorded
epoch timestamp is), the age `now - ts` is strictly below
`fingerprint_expiry`, and `force_check` is false, then `update_required`
returns `False` and leaves the cache untouched.  The fresh fingerprint
`new_fp` is universally quantified and absent from the conclusion: no query
is executed and no cache entry is written on this path. -/
theorem update_required_fast_path (st : FPCache) (now expiry ts : ℚ) (fp new_fp : String)
    (hfp : st.fingerprint = some fp) (hfp_ne : fp ≠ "")
    (hts : st.set_time = some ts) (hts_ne : ts ≠ 0)
    (hage : now - ts < expiry) :
    update_required st now expiry false new_fp = (false, st) := by
  have hexp : expired st now expiry = false := by
    rw [expired, hfp, hts]
    simp only [pyTruthyStr, pyTruthyRat, Option.getD_some]
    rw [if_neg, if_neg, if_pos hage]
    · simp [bne_iff_ne, hts_ne]
    · simp [String.isEmpty_iff, hfp_ne]
  rw [update_required, hexp]
  rfl

/-- Witness for C2 at a concrete input. -/
theorem update_required_fast_path_witness :
    ({ fingerprint := some "AB", set_time := some 100 } : FPCache).fingerprint = some "AB" ∧
    ("AB" : String) ≠ "" ∧ (100 : ℚ) ≠ 0 ∧ (110 : ℚ) - 100 < 30 ∧
    update_required { fingerprint := some "AB", set_time := some 100 } 110 30 false "CD"
      = (false, { fingerprint := some "AB", set_time := some 100 }) :=
  ⟨rfl, by decide, by norm_num, by norm_num,
    update_required_fast_path { fingerprint := some "AB", set_time := some 100 }
      110 30 100 "AB" "CD" rfl (by decide) rfl (by norm_num) (by norm_num)⟩

/-- C8: whenever `update_required` passes the freshness gate (the cached
fingerprint is expired, or `force_check` is true) and the freshly computed
fingerprint equals the cached one, it returns `False` and rewrites both
entries: the fingerprint entry keeps its value (`some new_fp`, which by
hypothesis is what was already stored) and the timestamp entry becomes the
current wall-clock time `now`. -/
theorem update_required_nochange_refreshes_timestamp (st : FPCache) (now expiry : ℚ)
    (force_check : Bool) (new_fp : String)
    (hgate : expired st now expiry = true ∨ force_check = true)
    (heq : st.fingerprint = some new_fp) :
    update_required st now expiry force_check new_fp
      = (false, { fingerprint := some new_fp, set_time := some now }) := by
  rw [update_required]
  have hcond : (!(expired st now expiry) && !force_check) = false := by
    rcases hgate with h | h <;> simp [h]
  rw [hcond, if_neg (by simp), if_pos heq]
  rfl

/-- Witness for C8 at a concrete input: the gate passes via `force_check`,
the fingerprints match, and the call returns `False` while rewriting the
timestamp from 100 to the current 150. -/
theorem update_required_nochange_refreshes_timestamp_witness :
    (expired { fingerprint := some "AB", set_time := some 100 } 150 30 = true ∨ true = true) ∧
    ({ fingerprint := some "AB", set_time := some 100 } : FPCache).fingerprint = some "AB" ∧
    update_required { fingerprint := some "AB", set_time := some 100 } 150 30 true "AB"
      = (false, { fingerprint := some "AB", set_time := some 150 }) :=
  ⟨Or.inr rfl, rfl,
    update_required_nochange_refreshes_timestamp
      { fingerprint := some "AB", set_time := some 100 } 150 30 true "AB"
      (Or.inr rfl) rfl⟩

/-- C5: `ModelTimeStampedFingerprint.update_required` first compares the
freshly computed table-wide fingerprint with the cached one.  If they are
equal it returns `False` with only the table-scoped pair rewritten — the
query-scoped state `st.base` is untouched and the conclusion does not
mention `query_fp`, so the query-scoped fingerprint is neither computed nor
read nor written.  If they differ it rewrites the table-scoped pair and
returns exactly what the inherited timestamp-mode `update_required` returns
on the query-scoped state.  In both branches the cached table fingerprint
and its timestamp are rewritten (to `table_fp` and `now`). -/
theorem tiered_update_required_shortcircuit (st : TieredFPCache) (now expiry : ℚ)
    (force_check : Bool) (table_fp query_fp : String) :
    (st.table_fingerprint = some table_fp →
      tiered_update_required st now expiry force_check table_fp query_fp
        = (false, set_cached_table_fingerprint st now table_fp)) ∧
    (st.table_fingerprint ≠ some table_fp →
      tiered_update_required st now expiry force_check table_fp query_fp
        = ((update_required st.base now expiry force_check query_fp).1,
           { set_cached_table_fingerprint st now table_fp with
              base := (update_required st.base now expiry force_check query_fp).2 })) := by
  constructor
  · intro h
    rw [tiered_update_required, if_pos h.symm]
  · intro h
    rw [tiered_update_required, if_neg (fun hc => h hc.symm)]
    rfl

/-- Witness for C5 at concrete inputs, exercising both branches: a matching
table fingerprint short-circuits to `False` leaving the query-scoped pair
untouched; a differing one falls through to the query-scoped check. -/
theorem tiered_update_required_shortcircuit_witness :
    (({ base := { fingerprint := some "Q", set_time := some 1 },
        table_fingerprint := some "T", table_set_time := some 2 } : TieredFPCache).table_fingerprint
      = some "T" ∧
     tiered_update_required
        { base := { fingerprint := some "Q", set_time := some 1 },
          table_fingerprint := some "T", table_set_time := some 2 } 50 30 false "T" "Q2"
      = (false, { base := { fingerprint := some "Q", set_time := some 1 },
                  table_fingerprint := some "T", table_set_time := some 50 })) ∧
    (({ base := { fingerprint := some "Q", set_time := some 1 },
        table_fingerprint := some "T", table_set_time := some 2 } : TieredFPCache).table_fingerprint
      ≠ some "U" ∧
     tiered_update_required
        { base := { fingerprint := some "Q", set_time := some 1 },
          table_fingerprint := some "T", table_set_time := some 2 } 50 30 false "U" "Q2"
      = ((update_required { fingerprint := some "Q", set_time := some 1 } 50 30 false "Q2").1,
         { base := (update_required { fingerprint := some "Q", set_time := some 1 } 50 30 false "Q2").2,
           table_fingerprint := some "U", table_set_time := some 50 })) :=
  ⟨⟨rfl, (tiered_update_required_shortcircuit
      { base := { fingerprint := some "Q", set_time := some 1 },
        table_fingerprint := some "T", table_set_time := some 2 } 50 30 false "T" "Q2").1 rfl⟩,
   ⟨by decide, (tiered_update_required_shortcircuit
      { base := { fingerprint := some "Q", set_time := some 1 },
        table_fingerprint := some "T", table_set_time := some 2 } 50 30 false "U" "Q2").2
      (by decide)⟩⟩

/-- C6: constructing a `TimeStampedFingerprint` with no explicit
`timestamp_column` kwarg resolves the column to the first model field whose
`auto_now` flag is true; if the model has no such field the construction
fails with `ValueError("No timestamp column")`.  The constructor writes no
cache entry: the cache state `st` is threaded through unchanged in the
success case and the error is raised before any write. -/
theorem tsfp_timestamp_column_discovery (fields : List DjangoField) (st : FPCache) :
    (∀ f : DjangoField, (fields.find? fun g => g.auto_now) = some f → f.name ≠ "" →
      tsfp_init_timestamp_column none fields st = Except.ok (f.name, st)) ∧
    ((fields.find? fun g => g.auto_now) = none →
      tsfp_init_timestamp_column none fields st = Except.error "No timestamp column") := by
  constructor
  · intro f hf hne
    rw [tsfp_init_timestamp_column]
    simp only [hf, Option.map]
    rw [if_neg (by simp [String.isEmpty_iff, hne])]
  · intro hf
    rw [tsfp_init_timestamp_column]
    simp [hf]

/-- Witness for C6 at concrete inputs: a model whose second field is the
`auto_now` one resolves to it; a model with no `auto_now` field errors. -/
theorem tsfp_timestamp_column_discovery_witness :
    (([{ name := "id", auto_now := false }, { name := "modified", auto_now := true }] :
        List DjangoField).find? (fun g => g.auto_now)
      = some { name := "modified", auto_now := true } ∧
     ("modified" : String) ≠ "" ∧
     tsfp_init_timestamp_column none
        [{ name := "id", auto_now := false }, { name := "modified", auto_now := true }]
        { fingerprint := none, set_time := none }
      = Except.ok ("modified", { fingerprint := none, set_time := none })) ∧
    (([{ name := "id", auto_now := false }] : List DjangoField).find? (fun g => g.auto_now)
      = none ∧
     tsfp_init_timestamp_column none [{ name := "id", auto_now := false }]
        { fingerprint := none, set_time := none }
      = Except.error "No timestamp column") :=
  ⟨⟨by decide, by decide,
      (tsfp_timestamp_column_discovery
        [{ name := "id", auto_now := false }, { name := "modified", auto_now := true }]
        { fingerprint := none, set_time := none }).1
        { name := "modified", auto_now := true } (by decide) (by decide)⟩,
   ⟨by decide,
      (tsfp_timestamp_column_discovery [{ name := "id", auto_now := false }]
        { fingerprint := none, set_time := none }).2 (by decide)⟩⟩

/-- C7: on a dummy (no-op) cache backend, `CachedQuerySet.get_with_update`
returns the freshly computed serialization `ser` of the query — for every
prior cache state, so a previously stored serialization is never returned —
and the entire cache state is unchanged: nothing is written to the value
store. -/
theorem cachedqueryset_dummy_always_recomputes {σ : Type} (st : CQCache σ)
    (now expiry : ℚ) (new_fp : String) (ser : σ) (h : st.dummy = true) :
    get_with_update st now expiry new_fp ser = (some ser, st) := by
  simp [get_with_update, update_if_required, cq_contains_value, update_cache,
    cq_update_required, cq_expired, cq_get_fingerprint, cq_get_set_time, pyTruthyStr,
    cq_set_cached_fingerprint, cached_query, h]

/-- Witness for C7 at a concrete input: a dummy-backed state that even holds
a stale serialized value `7` still yields the fresh serialization `9` and is
left unchanged. -/
theorem cachedqueryset_dummy_always_recomputes_witness :
    ({ dummy := true, value := some 7, fingerprint := some "AB", set_time := some 3 } :
        CQCache Nat).dummy = true ∧
    get_with_update
      ({ dummy := true, value := some 7, fingerprint := some "AB", set_time := some 3 } :
        CQCache Nat) 110 30 "CD" 9
      = (some 9, { dummy := true, value := some 7, fingerprint := some "AB", set_time := some 3 }) :=
  ⟨rfl, cachedqueryset_dummy_always_recomputes
    { dummy := true, value := some 7, fingerprint := some "AB", set_time := some 3 }
    110 30 "CD" 9 rfl⟩

theorem update_required_snd_cases (b : FPCache) (now expiry : ℚ) (force : Bool) (nfp : String) :
    (update_required b now expiry force nfp).2 = b ∨
    (update_required b now expiry force nfp).2 = set_cached_fingerprint now nfp := by
  rw [update_required]
  split
  · exact Or.inl rfl
  · split
    · exact Or.inr rfl
    · exact Or.inr rfl

theorem applyCacheOp_preserves_fpPaired (st : TieredFPCache) (op : CacheOp)
    (h : fpPaired st) : fpPaired (applyCacheOp st op) := by
  obtain ⟨hb, ht⟩ := h
  cases op with
  | setFP now v => exact ⟨fun _ => rfl, ht⟩
  | delFP => exact ⟨fun hc => by simp [applyCacheOp, delete_cached_fingerprint] at hc, ht⟩
  | updateReq now expiry force nfp =>
    rcases update_required_snd_cases st.base now expiry force nfp with hc | hc <;>
      exact ⟨fun hs => by simp only [applyCacheOp, hc] at hs ⊢; first
        | exact hb hs
        | rfl, ht⟩
  | setTableFP now v => exact ⟨hb, fun _ => rfl⟩
  | delTableFP =>
    exact ⟨hb, fun hc => by simp [applyCacheOp, delete_cached_table_fingerprint] at hc⟩
  | tieredUpdateReq now expiry force tfp qfp =>
    show fpPaired (tiered_update_required st now expiry force tfp qfp).2
    rw [tiered_update_required]
    split
    · exact ⟨hb, fun _ => rfl⟩
    · show fpPaired
        (TieredFPCache.mk (update_required st.base now expiry force qfp).2 (some tfp) (some now))
      rcases update_required_snd_cases st.base now expiry force qfp with hc | hc <;> rw [hc]
      · exact ⟨hb, fun _ => rfl⟩
      · exact ⟨fun _ => rfl, fun _ => rfl⟩

theorem foldl_applyCacheOp_preserves (ops : List CacheOp) :
    ∀ st : TieredFPCache, fpPaired st → fpPaired (ops.foldl applyCacheOp st) := by
  induction ops with
  | nil => intro st h; exact h
  | cons op ops ih =>
    intro st h
    exact ih (applyCacheOp st op) (applyCacheOp_preserves_fpPaired st op h)

/-- C9: starting from an empty cache, any sequence of engine operations
(content-mode, timestamp-mode and tiered setters, deleters and
`update_required` calls) leaves the cache in a state where a fingerprint
entry never exists without its matching freshness-timestamp entry: every
write of a fingerprint entry writes the timestamp alongside it and every
delete removes both. -/
theorem fingerprint_timestamp_always_paired (ops : List CacheOp) :
    fpPaired (ops.foldl applyCacheOp initialFPCache) := by
  refine foldl_applyCacheOp_preserves ops initialFPCache ?_
  exact ⟨fun hc => by simp [initialFPCache] at hc, fun hc => by simp [initialFPCache] at hc⟩

/-- Witness for C9 at a concrete input: a short operation sequence mixing
writes, an update and a delete ends paired. -/
theorem fingerprint_timestamp_always_paired_witness :
    fpPaired ([CacheOp.setFP 5 "AB", CacheOp.setTableFP 6 "T", CacheOp.delFP,
        CacheOp.updateReq 7 30 false "CD"].foldl applyCacheOp initialFPCache) :=
  fingerprint_timestamp_always_paired
    [CacheOp.setFP 5 "AB", CacheOp.setTableFP 6 "T", CacheOp.delFP,
      CacheOp.updateReq 7 30 false "CD"]

/-- C10: `Fingerprinting.__init__` coerces a falsy `fingerprint_expiry`
(`None` or `0`) to the 30-second default via Python `or`, so a zero-second
window cannot be configured through this parameter, while any non-zero
value — negative ones included — is kept as given. -/
theorem fingerprint_expiry_falsy_defaults_to_30 (v : ℚ) (hv : v ≠ 0) :
    effective_fingerprint_expiry none = 30 ∧
    effective_fingerprint_expiry (some 0) = 30 ∧
    effective_fingerprint_expiry (some v) = v := by
  refine ⟨rfl, by norm_num [effective_fingerprint_expiry], ?_⟩
  simp [effective_fingerprint_expiry, hv]

/-- Witness for C10 at a concrete input: a negative expiry of −5 is kept. -/
theorem fingerprint_expiry_falsy_defaults_to_30_witness :
    ((-5 : ℚ) ≠ 0) ∧
    effective_fingerprint_expiry none = 30 ∧
    effective_fingerprint_expiry (some 0) = 30 ∧
    effective_fingerprint_expiry (some (-5)) = -5 :=
  ⟨by norm_num, fingerprint_expiry_falsy_defaults_to_30 (-5) (by norm_num)⟩

